import Mathlib

/-!
Shallow embedding of `insights_bot.py` (Daily Insights Telegram bot).

External effects (HTTP calls to Telegram, the AI endpoint and Google Drive,
and the local filesystem) are modelled by explicit parameters and state:
the outcome of each network call is an input to the embedded function, the
local filesystem is a map from paths to contents, and the Drive is a list
of files.  Wall-clock time is modelled by the Unix timestamp of local
midnight and a fixed local-timezone offset in seconds.
-/

namespace InsightsBot

/-- A Telegram message as used by the bot: chat identifier, Unix timestamp
(`msg["date"]`), and optional text (`msg.get("text", "")` defaults to `""`). -/
structure Message where
  chat_id : Int
  date : Nat
  text : Option String
deriving DecidableEq, Repr

/-- A polled update; the `message` field may be absent
(the code checks `"message" in update`). -/
structure TgUpdate where
  message : Option Message
deriving DecidableEq, Repr

/-- Outcome of the `requests.get(getUpdates)` call in `get_todays_messages`:
either the request raised an exception, or it returned a JSON body with an
`ok` flag and a `result` list of updates. -/
inductive FetchOutcome where
  | netError (e : String)
  | response (ok : Bool) (result : List TgUpdate)
deriving DecidableEq, Repr

/-- Two-digit zero-padded rendering of a number below 100, as produced by
`strftime` fields. -/
def pad2 (n : Nat) : String :=
  if n < 10 then "0" ++ toString n else toString n

/-- The `HH:MM` stamp `datetime.fromtimestamp(t).strftime("%H:%M")` for Unix
time `t` in a local timezone `off` seconds east of UTC. -/
def hhmm (off t : Nat) : String :=
  pad2 ((t + off) / 3600 % 24) ++ ":" ++ pad2 ((t + off) / 60 % 60)

/-- The retention condition of the loop body in `get_todays_messages`:
the chat id printed with `str` equals `YOUR_CHAT_ID` (here `cfg`), the
message date is on or after local midnight (`msg_date >= today`), and the
text is non-empty and not the literal placeholder. -/
def keepMsg (cfg : Option String) (midnight : Nat) (m : Message) : Bool :=
  cfg = some (toString m.chat_id) ∧ midnight ≤ m.date ∧
    m.text.getD "" ≠ "" ∧ m.text.getD "" ≠ "\x7binput\x7d"

/-- The formatted line `f"[\x7btime\x7d] \x7btext\x7d"` for a retained message. -/
def fmtMsg (off : Nat) (m : Message) : String :=
  "[" ++ hhmm off m.date ++ "] " ++ m.text.getD ""

/-- The `messages` list built by the loop in `get_todays_messages`: one
formatted line per retained message, in the delivery order of `result`. -/
def messageLines (cfg : Option String) (off midnight : Nat)
    (updates : List TgUpdate) : List String :=
  updates.filterMap fun u =>
    u.message.bind fun m =>
      if keepMsg cfg midnight m then some (fmtMsg off m) else none

/-- The retained messages themselves (before formatting), in delivery order. -/
def qualMsgs (cfg : Option String) (midnight : Nat)
    (updates : List TgUpdate) : List Message :=
  updates.filterMap fun u =>
    u.message.bind fun m =>
      if keepMsg cfg midnight m then some m else none

/-- Embedding of `get_todays_messages`: returns the pair
`(transcript or None, error or None)` exactly as the Python function does. -/
def get_todays_messages (cfg : Option String) (off midnight : Nat)
    (out : FetchOutcome) : Option String × Option String :=
  match out with
  | .netError e => (none, some ("Error: " ++ e))
  | .response ok result =>
    if !ok then (none, some "Error fetching messages")
    else
      let msgs := messageLines cfg off midnight result
      if msgs.isEmpty then (none, some "No messages found for today")
      else (some (String.intercalate "\n" msgs), none)

theorem messageLines_eq_map_fmt (cfg : Option String) (off midnight : Nat)
    (updates : List TgUpdate) :
    messageLines cfg off midnight updates =
      (qualMsgs cfg midnight updates).map (fmtMsg off) := by
  induction updates with
  | nil => rfl
  | cons u us ih =>
    simp only [messageLines, qualMsgs, List.filterMap_cons] at *
    cases hm : u.message with
    | none => simpa [hm] using ih
    | some m =>
      by_cases hk : keepMsg cfg midnight m = true <;>
        simp [hm, hk, Option.bind] <;> simpa [messageLines, qualMsgs] using ih

theorem messageLines_append (cfg : Option String) (off midnight : Nat)
    (l₁ l₂ : List TgUpdate) :
    messageLines cfg off midnight (l₁ ++ l₂) =
      messageLines cfg off midnight l₁ ++ messageLines cfg off midnight l₂ := by
  simp [messageLines, List.filterMap_append]

/-- The chunk list `[analysis[i:i+4000] for i in range(0, len(analysis), 4000)]`
on the underlying character list: consecutive 4000-character slices, the last
possibly shorter, none produced for an empty input. -/
def chunks4000 (l : List Char) : List (List Char) :=
  if l.isEmpty then [] else l.take 4000 :: chunks4000 (l.drop 4000)
termination_by l.length
decreasing_by
  simp only [List.isEmpty_iff] at *
  have : l.length ≠ 0 := by simpa using ‹l ≠ []›
  simp [List.length_drop]
  omega

/-- The chunks of an analysis string, as strings. -/
def stringChunks (s : String) : List String :=
  (chunks4000 s.data).map String.mk

theorem chunks4000_nil : chunks4000 [] = [] := by
  rw [chunks4000]; rfl

theorem chunks4000_ne_nil (l : List Char) (h : l ≠ []) :
    chunks4000 l = l.take 4000 :: chunks4000 (l.drop 4000) := by
  rw [chunks4000]; simp [List.isEmpty_iff, h]

theorem chunks4000_flatten (l : List Char) : (chunks4000 l).flatten = l := by
  induction l using chunks4000.induct with
  | case1 l h => simp only [List.isEmpty_iff] at h; subst h; simp [chunks4000_nil]
  | case2 l h ih =>
    have h' : l ≠ [] := by simpa [List.isEmpty_iff] using h
    rw [chunks4000_ne_nil l h', List.flatten_cons, ih, List.take_append_drop]

theorem chunks4000_length_le (l : List Char) (c : List Char)
    (hc : c ∈ chunks4000 l) : c.length ≤ 4000 := by
  induction l using chunks4000.induct with
  | case1 l h =>
    simp only [List.isEmpty_iff] at h; subst h
    simp [chunks4000_nil] at hc
  | case2 l h ih =>
    have h' : l ≠ [] := by simpa [List.isEmpty_iff] using h
    rw [chunks4000_ne_nil l h'] at hc
    rcases List.mem_cons.mp hc with hh | hh
    · subst hh; simp [List.length_take]
    · exact ih hh

theorem chunks4000_dropLast_length (l : List Char) (c : List Char)
    (hc : c ∈ (chunks4000 l).dropLast) : c.length = 4000 := by
  induction l using chunks4000.induct with
  | case1 l h =>
    simp only [List.isEmpty_iff] at h; subst h
    simp [chunks4000_nil] at hc
  | case2 l h ih =>
    have h' : l ≠ [] := by simpa [List.isEmpty_iff] using h
    rw [chunks4000_ne_nil l h'] at hc
    cases hrest : (l.drop 4000).isEmpty with
    | true =>
      simp only [List.isEmpty_iff] at hrest
      rw [hrest, chunks4000_nil] at hc
      simp at hc
    | false =>
      have hr : l.drop 4000 ≠ [] := by simpa [List.isEmpty_iff] using hrest
      have hlen : 4000 < l.length := by simpa using hr
      have hne : chunks4000 (l.drop 4000) ≠ [] := by
        rw [chunks4000_ne_nil _ hr]; simp
      rw [List.dropLast_cons_of_ne_nil hne] at hc
      rcases List.mem_cons.mp hc with hh | hh
      · subst hh; simp [List.length_take]; omega
      · exact ih hh

/-- Length pattern of the chunks of a 9000-character analysis. -/
theorem chunks4000_map_length_9000 (l : List Char) (h : l.length = 9000) :
    (chunks4000 l).map List.length = [4000, 4000, 1000] := by
  have h1 : l ≠ [] := by intro hn; subst hn; simp at h
  have h2 : l.drop 4000 ≠ [] := by
    intro hn
    have := congrArg List.length hn
    simp [List.length_drop, h] at this
  have h3 : (l.drop 4000).drop 4000 ≠ [] := by
    intro hn
    have := congrArg List.length hn
    simp [List.length_drop, h] at this
  have h4 : ((l.drop 4000).drop 4000).drop 4000 = [] := by
    apply List.drop_eq_nil_of_le
    simp [List.length_drop, h]
  rw [chunks4000_ne_nil l h1, chunks4000_ne_nil _ h2, chunks4000_ne_nil _ h3,
    h4, chunks4000_nil]
  simp [List.length_take, List.length_drop, h]

/-- Joining the string chunks gives back the original string. -/
theorem join_stringChunks (s : String) : String.join (stringChunks s) = s := by
  apply String.ext
  simp only [String.data_join, stringChunks, List.map_map]
  have hcomp : (String.data ∘ String.mk) = id := by funext l; rfl
  rw [hcomp, List.map_id, chunks4000_flatten]

/-- The fixed header sent before the analysis text:
the bold title line, thirty equals signs, and a blank line. -/
def headerStr : String :=
  "📊 *DAILY INSIGHTS*\n" ++ String.mk (List.replicate 30 '=') ++ "\n\n"

/-- Observable actions of `analyze_command`: outbound Telegram replies (with
their parse mode) and the external calls it makes. -/
inductive Effect where
  | reply (text : String) (markdown : Bool)
  | fetchCall
  | aiCall (transcript : String)
  | driveAuthCall
  | folderCall
  | saveCall (filename content : String)
deriving DecidableEq, Repr

/-- The reply-the-analysis step of `analyze_command` (lines 199-209): if the
header plus analysis exceeds 4000 characters, send the header alone and then
each 4000-character chunk of the analysis; otherwise one combined message. -/
def sendAnalysis (analysis : String) : List Effect :=
  if (headerStr ++ analysis).length > 4000 then
    Effect.reply headerStr true ::
      (stringChunks analysis).map (fun c => Effect.reply c false)
  else
    [Effect.reply (headerStr ++ analysis) true]

/-- Splitting a character list at newline characters, the segments in
order; the splitlines-style line structure of the transcript. -/
def splitNL : List Char → List (List Char)
  | [] => [[]]
  | c :: t =>
    if c = '\n' then [] :: splitNL t
    else
      match splitNL t with
      | [] => [[c]]
      | h :: r => (c :: h) :: r

/-- The line count used in the progress message, from splitlines. -/
def countLines (s : String) : Nat := (splitNL s.data).length

/-- Outcome of the network call in `analyze_with_ai`: an exception,
or a JSON body with a candidate list and an optional error message. -/
inductive AIOutcome where
  | netError (e : String)
  | response (candidates : List String) (errMsg : Option String)
deriving DecidableEq, Repr

/-- Embedding of `analyze_with_ai`: first candidate text if present,
otherwise the provider error; exceptions become wrapped error strings. -/
def analyze_with_ai (out : AIOutcome) : Option String × Option String :=
  match out with
  | .netError e => (none, some ("Error calling AI: " ++ e))
  | .response [] err => (none, some ("AI Error: " ++ err.getD "Unknown error"))
  | .response (c :: _) _ => (some c, none)

/-- A file on the modelled Drive. -/
structure DriveFile where
  id : Nat
  name : String
  mimeType : String
  trashed : Bool
  parents : List Nat
  content : String
  webViewLink : String
deriving DecidableEq, Repr

/-- The modelled Drive: its files in list order (the order the list
query returns), plus a counter supplying fresh file identifiers. -/
structure DriveState where
  files : List DriveFile
  nextId : Nat
deriving DecidableEq, Repr

/-- The fixed destination folder name. -/
def FOLDER_NAME : String := "Daily Insights"

/-- The query of `get_or_create_folder`: exact name, folder mime type,
not trashed. -/
def isFolderMatch (f : DriveFile) : Bool :=
  f.name = FOLDER_NAME ∧ f.mimeType = "application/vnd.google-apps.folder" ∧
    f.trashed = false

/-- Embedding of `get_or_create_folder`: return the id of the first folder
matching the query, or create a new folder (fresh id, matching metadata)
when there is no match. -/
def get_or_create_folder (s : DriveState) : Nat × DriveState :=
  match s.files.filter isFolderMatch with
  | f :: _ => (f.id, s)
  | [] =>
    let f : DriveFile :=
      ⟨s.nextId, FOLDER_NAME, "application/vnd.google-apps.folder", false, [], "", ""⟩
    (s.nextId, ⟨s.files ++ [f], s.nextId + 1⟩)

/-- Local filesystem model: a map from paths to file contents. -/
def FileSys : Type := String → Option String

/-- Writing a file: open for writing truncates, then write the content. -/
def fsWrite (fs : FileSys) (path content : String) : FileSys :=
  fun p => if p = path then some content else fs p

/-- Removing a file (os.remove). -/
def fsRemove (fs : FileSys) (path : String) : FileSys :=
  fun p => if p = path then none else fs p

/-- Whether the upload call in `save_to_drive` returns normally
or raises an exception. -/
inductive UploadOutcome where
  | ok
  | raise (e : String)
deriving DecidableEq, Repr

/-- Embedding of `save_to_drive`: write the content to a temp file under
/tmp, upload the bytes of that temp file, and remove the temp file; the
removal statement is only reached when the upload call returns normally,
because an exception propagates to the caller immediately. -/
def save_to_drive (drive : DriveState) (fs : FileSys) (folder_id : Nat)
    (filename content : String) (mkLink : Nat → String)
    (outcome : UploadOutcome) :
    DriveState × FileSys × Except String String :=
  let temp_file := "/tmp/" ++ filename
  let fs1 := fsWrite fs temp_file content
  let bytes := (fs1 temp_file).getD ""
  match outcome with
  | .raise e => (drive, fs1, .error e)
  | .ok =>
    let f : DriveFile :=
      ⟨drive.nextId, filename, "text/plain", false, [folder_id], bytes,
        mkLink drive.nextId⟩
    (⟨drive.files ++ [f], drive.nextId + 1⟩, fsRemove fs1 temp_file,
      .ok (mkLink drive.nextId))

/-- All external inputs to one /analyze invocation: the clock, the outcome
of each network call, the Drive and local-filesystem states, and the
provider-issued links. -/
structure Env where
  off : Nat
  midnight : Nat
  fetchOut : FetchOutcome
  aiOut : AIOutcome
  driveAuth : Option String
  drive : DriveState
  fs : FileSys
  mkLink : Nat → String
  inputOutcome : UploadOutcome
  insightsOutcome : UploadOutcome
  todayStr : String

/-- Embedding of `analyze_command` as the list of its observable effects, in
program order. -/
def analyze_command (cfg : Option String) (chatId : Int) (env : Env) :
    List Effect :=
  if some (toString chatId) ≠ cfg then [Effect.reply "❌ Unauthorized" false]
  else
    Effect.reply "🔍 Fetching your messages from today..." false ::
    Effect.fetchCall ::
    (match get_todays_messages cfg env.off env.midnight env.fetchOut with
    | (_, some error) => [Effect.reply ("❌ " ++ error) false]
    | (messagesOpt, none) =>
      let messages := messagesOpt.getD ""
      Effect.reply ("✅ Found " ++ toString (countLines messages) ++
        " messages\n\n🤖 Analyzing with AI...") false ::
      Effect.aiCall messages ::
      (match analyze_with_ai env.aiOut with
      | (_, some error) => [Effect.reply ("❌ " ++ error) false]
      | (analysisOpt, none) =>
        let analysis := analysisOpt.getD ""
        sendAnalysis analysis ++
        Effect.reply "💾 Saving to Google Drive..." false ::
        Effect.driveAuthCall ::
        (match env.driveAuth with
        | some error =>
          [Effect.reply ("⚠️  " ++ error ++
            "\nAnalysis sent but not saved to Drive.") false]
        | none =>
          Effect.folderCall ::
          (let fr := get_or_create_folder env.drive
          let input_filename := "inputs_" ++ env.todayStr ++ ".txt"
          let input_content :=
            "Daily Input Messages - " ++ env.todayStr ++ "\n\n" ++ messages
          Effect.saveCall input_filename input_content ::
          (let r1 := save_to_drive fr.2 env.fs fr.1 input_filename
            input_content env.mkLink env.inputOutcome
          match r1.2.2 with
          | .error e =>
            [Effect.reply ("⚠️  Error saving to Drive: " ++ e ++
              "\nAnalysis was sent but not saved.") false]
          | .ok input_link =>
            let insights_filename := "insights_" ++ env.todayStr ++ ".txt"
            let insights_content :=
              "Daily Insights - " ++ env.todayStr ++ "\n\n" ++ analysis
            Effect.saveCall insights_filename insights_content ::
            (match (save_to_drive r1.1 r1.2.1 fr.1 insights_filename
              insights_content env.mkLink env.insightsOutcome).2.2 with
            | .error e =>
              [Effect.reply ("⚠️  Error saving to Drive: " ++ e ++
                "\nAnalysis was sent but not saved.") false]
            | .ok insights_link =>
              [Effect.reply ("✅ Saved to Google Drive!\n\n📝 [View Inputs](" ++
                input_link ++ ")\n📊 [View Insights](" ++ insights_link ++ ")")
                true]))))))

/-- A concrete environment used to instantiate hypotheses of the dispatcher
theorems: one qualifying message, a successful analysis, working Drive. -/
def sampleEnv : Env :=
  ⟨0, 0, .response true [⟨some ⟨1, 100, some "hello"⟩⟩],
    .response ["all good"] none, none, ⟨[], 0⟩, fun _ => none,
    fun i => "https://drive/" ++ toString i, .ok, .ok, "2024-01-01"⟩

/-- Claim C1: a command whose conversation identifier differs from the
configured one yields exactly the fixed unauthorized reply, and the
invocation performs no fetch, analyze or save call. -/
theorem c1_unauthorized_short_circuit (cfg : Option String) (chatId : Int)
    (env : Env) (h : some (toString chatId) ≠ cfg) :
    analyze_command cfg chatId env = [Effect.reply "❌ Unauthorized" false] ∧
    Effect.fetchCall ∉ analyze_command cfg chatId env ∧
    (∀ s, Effect.aiCall s ∉ analyze_command cfg chatId env) ∧
    (∀ f c, Effect.saveCall f c ∉ analyze_command cfg chatId env) := by
  have ht : analyze_command cfg chatId env =
      [Effect.reply "❌ Unauthorized" false] := by
    unfold analyze_command; rw [if_pos h]
  refine ⟨ht, ?_, ?_, ?_⟩ <;> simp [ht]

/-- Witness for C1 at a concrete unauthorized chat identifier. -/
theorem c1_unauthorized_short_circuit_witness :
    (some (toString (7 : Int)) ≠ some "42") ∧
    analyze_command (some "42") 7 sampleEnv =
      [Effect.reply "❌ Unauthorized" false] :=
  ⟨by decide, (c1_unauthorized_short_circuit (some "42") 7 sampleEnv
    (by decide)).1⟩

/-- Claim C10: with the authorized-conversation configuration absent
(YOUR_CHAT_ID unset, so the environment lookup returns None), every
invocation from any chat is rejected with the unauthorized reply and the
pipeline is unreachable. -/
theorem c10_missing_config_rejects_all (chatId : Int) (env : Env) :
    analyze_command none chatId env = [Effect.reply "❌ Unauthorized" false] ∧
    Effect.fetchCall ∉ analyze_command none chatId env ∧
    (∀ s, Effect.aiCall s ∉ analyze_command none chatId env) ∧
    (∀ f c, Effect.saveCall f c ∉ analyze_command none chatId env) := by
  have ht : analyze_command none chatId env =
      [Effect.reply "❌ Unauthorized" false] := by
    unfold analyze_command
    rw [if_pos (by simp)]
  refine ⟨ht, ?_, ?_, ?_⟩ <;> simp [ht]

/-- Claim C8: resolving the destination folder twice with no intervening
external change returns the same folder identifier both times and does not
create a second folder (the second call leaves the Drive state unchanged). -/
theorem c8_folder_resolution_idempotent (s : DriveState) :
    (get_or_create_folder (get_or_create_folder s).2).1 =
      (get_or_create_folder s).1 ∧
    (get_or_create_folder (get_or_create_folder s).2).2 =
      (get_or_create_folder s).2 := by
  unfold get_or_create_folder
  cases hf : s.files.filter isFolderMatch with
  | cons f fs => simp [hf]
  | nil =>
    simp only [hf]
    have hmatch : isFolderMatch
        ⟨s.nextId, FOLDER_NAME, "application/vnd.google-apps.folder",
          false, [], "", ""⟩ = true := by
      simp [isFolderMatch]
    simp [List.filter_append, hf, hmatch]

/-- Claim C9: a successful save stores on the Drive exactly the given
content: the resulting Drive gains one file whose content field is
byte-identical to the input, the returned link is the link of that file,
and the bytes written to the transient temp file are exactly the content. -/
theorem c9_saved_content_byte_identical (drive : DriveState) (fs : FileSys)
    (folder_id : Nat) (filename content : String) (mkLink : Nat → String) :
    (save_to_drive drive fs folder_id filename content mkLink .ok).1.files =
      drive.files ++ [⟨drive.nextId, filename, "text/plain", false,
        [folder_id], content, mkLink drive.nextId⟩] ∧
    (save_to_drive drive fs folder_id filename content mkLink .ok).2.2 =
      .ok (mkLink drive.nextId) ∧
    fsWrite fs ("/tmp/" ++ filename) content ("/tmp/" ++ filename) =
      some content := by
  refine ⟨?_, rfl, ?_⟩ <;> simp [save_to_drive, fsWrite]

/-- The statement of claim C6 as written: on every execution path of
`save_to_drive`, the transient temp file is absent afterwards. -/
def c6ClaimStatement : Prop :=
  ∀ (drive : DriveState) (fs : FileSys) (folder_id : Nat)
    (filename content : String) (mkLink : Nat → String)
    (outcome : UploadOutcome),
    (save_to_drive drive fs folder_id filename content mkLink outcome).2.1
      ("/tmp/" ++ filename) = none

/-- Claim C6 is false: when the upload call raises, `os.remove` is never
reached and the temp file survives with its full content. -/
theorem c6_counterexample : ¬ c6ClaimStatement := by
  intro h
  have h1 := h ⟨[], 0⟩ (fun _ => none) 0 "f.txt" "hello" (fun _ => "")
    (.raise "boom")
  have h2 : (save_to_drive ⟨[], 0⟩ (fun _ => none) 0 "f.txt" "hello"
      (fun _ => "") (.raise "boom")).2.1 ("/tmp/" ++ "f.txt") =
      some "hello" := by
    simp [save_to_drive, fsWrite]
  rw [h1] at h2
  exact Option.noConfusion h2

/-- Claim C6 amended: the temp file is removed exactly when the upload call
returns normally; when the upload raises, the file is left behind holding
the content, because the removal statement is never reached. -/
theorem c6_temp_file_lifecycle (drive : DriveState) (fs : FileSys)
    (folder_id : Nat) (filename content : String) (mkLink : Nat → String)
    (outcome : UploadOutcome) :
    (save_to_drive drive fs folder_id filename content mkLink outcome).2.1
      ("/tmp/" ++ filename) =
      match outcome with
      | .ok => none
      | .raise _ => some content := by
  cases outcome <;> simp [save_to_drive, fsWrite, fsRemove]

/-- The drop condition of claim C2 as written: the update carries a message
that is outside the current calendar day (before local midnight or on a
later day, the day ending at `nextMidnight`), or from another conversation,
or with empty text, or with the placeholder text. An update without a
message also contributes nothing. -/
def claim2DroppedDay (cfg : Option String) (midnight nextMidnight : Nat)
    (u : TgUpdate) : Bool :=
  match u.message with
  | none => true
  | some m =>
    ¬(midnight ≤ m.date ∧ m.date < nextMidnight) ∨
      cfg ≠ some (toString m.chat_id) ∨
      m.text.getD "" = "" ∨ m.text.getD "" = "\x7binput\x7d"

/-- The drop condition that the code actually implements: only the lower
day bound is checked. -/
def codeDropped (cfg : Option String) (midnight : Nat) (u : TgUpdate) : Bool :=
  match u.message with
  | none => true
  | some m =>
    m.date < midnight ∨ cfg ≠ some (toString m.chat_id) ∨
      m.text.getD "" = "" ∨ m.text.getD "" = "\x7binput\x7d"

/-- The statement of claim C2 as written: deleting any update satisfying the
drop condition leaves the built message list unchanged (so such a message
never appears and its removal preserves the order of the rest). -/
def c2ClaimStatement : Prop :=
  ∀ (cfg : Option String) (off midnight nextMidnight : Nat)
    (l₁ l₂ : List TgUpdate) (u : TgUpdate),
    midnight < nextMidnight →
    claim2DroppedDay cfg midnight nextMidnight u = true →
    messageLines cfg off midnight (l₁ ++ u :: l₂) =
      messageLines cfg off midnight (l₁ ++ l₂)

/-- Claim C2 is false as written: a message dated after the end of the
current calendar day (here Unix time 100000, on the day after the day
ending at 86400) is outside the current calendar day, yet the code keeps
it, because only the lower bound `msg_date >= today` is checked. -/
theorem c2_counterexample : ¬ c2ClaimStatement := by
  intro h
  have hd : claim2DroppedDay (some "1") 0 86400
      ⟨some ⟨1, 100000, some "hi"⟩⟩ = true := by decide
  have h1 := h (some "1") 0 0 86400 [] [] ⟨some ⟨1, 100000, some "hi"⟩⟩
    (by decide) hd
  have h2 : ¬(messageLines (some "1") 0 0
      ([] ++ ⟨some ⟨1, 100000, some "hi"⟩⟩ :: []) =
      messageLines (some "1") 0 0 ([] ++ [])) := by decide
  exact h2 h1

/-- Claim C2 amended: replace the day-window condition with the one the code
checks, a timestamp before local midnight of the current date. Deleting any
update that is from another conversation, or dated before local midnight,
or with empty text, or with the placeholder text, leaves the built message
list unchanged, so such a message never appears in the transcript and its
removal does not disturb the order of the retained messages. -/
theorem c2_filtered_messages_never_appear (cfg : Option String)
    (off midnight : Nat) (l₁ l₂ : List TgUpdate) (u : TgUpdate)
    (h : codeDropped cfg midnight u = true) :
    messageLines cfg off midnight (l₁ ++ u :: l₂) =
      messageLines cfg off midnight (l₁ ++ l₂) := by
  have hu : (u.message.bind fun m =>
      if keepMsg cfg midnight m then some (fmtMsg off m) else none) = none := by
    cases hm : u.message with
    | none => rfl
    | some m =>
      unfold codeDropped at h
      rw [hm] at h
      simp only [decide_eq_true_eq] at h
      have hnot : ¬(cfg = some (toString m.chat_id) ∧ midnight ≤ m.date ∧
          m.text.getD "" ≠ "" ∧ m.text.getD "" ≠ "\x7binput\x7d") := by
        rcases h with h1 | h2 | h3 | h4
        · rintro ⟨-, hle, -, -⟩; omega
        · rintro ⟨heq, -, -, -⟩; exact h2 heq
        · rintro ⟨-, -, hne, -⟩; exact hne h3
        · rintro ⟨-, -, -, hne⟩; exact hne h4
      simp [keepMsg, hnot]
  simp only [messageLines, List.filterMap_append, List.filterMap_cons, hu]

/-- Witness for the amended C2 at a concrete input: a placeholder-text
message between two qualifying messages is dropped without affecting them. -/
theorem c2_filtered_messages_never_appear_witness :
    codeDropped (some "1") 50 ⟨some ⟨1, 60, some "\x7binput\x7d"⟩⟩ = true ∧
    messageLines (some "1") 0 50
      ([⟨some ⟨1, 55, some "a"⟩⟩] ++ ⟨some ⟨1, 60, some "\x7binput\x7d"⟩⟩ ::
        [⟨some ⟨1, 70, some "b"⟩⟩]) =
    messageLines (some "1") 0 50
      ([⟨some ⟨1, 55, some "a"⟩⟩] ++ [⟨some ⟨1, 70, some "b"⟩⟩]) :=
  ⟨by decide, c2_filtered_messages_never_appear (some "1") 0 50
    [⟨some ⟨1, 55, some "a"⟩⟩] [⟨some ⟨1, 70, some "b"⟩⟩]
    ⟨some ⟨1, 60, some "\x7binput\x7d"⟩⟩ (by decide)⟩

/-- Claim C4: with N qualifying messages, the returned transcript is the
newline join of exactly N lines, one per qualifying message in the original
delivery order, each line being the bracketed local HH:MM stamp followed by
the text; the error component is empty. -/
theorem c4_transcript_lines (cfg : Option String) (off midnight : Nat)
    (us : List TgUpdate) (h : qualMsgs cfg midnight us ≠ []) :
    (get_todays_messages cfg off midnight (.response true us)).1 =
      some (String.intercalate "\n"
        ((qualMsgs cfg midnight us).map (fmtMsg off))) ∧
    (get_todays_messages cfg off midnight (.response true us)).2 = none ∧
    ((qualMsgs cfg midnight us).map (fmtMsg off)).length =
      (qualMsgs cfg midnight us).length ∧
    ∀ m ∈ qualMsgs cfg midnight us,
      fmtMsg off m = "[" ++ hhmm off m.date ++ "] " ++ m.text.getD "" := by
  have hml : messageLines cfg off midnight us =
      (qualMsgs cfg midnight us).map (fmtMsg off) :=
    messageLines_eq_map_fmt cfg off midnight us
  have hne : (messageLines cfg off midnight us).isEmpty = false := by
    rw [hml]
    cases hq : qualMsgs cfg midnight us with
    | nil => exact absurd hq h
    | cons a l => simp
  constructor
  · simp [get_todays_messages, hne, hml, h]
  refine ⟨?_, List.length_map _ _, fun m _ => rfl⟩
  simp [get_todays_messages, hne, hml, h]

/-- Witness for C4 with two qualifying messages among three updates. -/
theorem c4_transcript_lines_witness :
    qualMsgs (some "1") 50 [⟨some ⟨1, 55, some "a"⟩⟩, ⟨some ⟨2, 60, some "x"⟩⟩,
      ⟨some ⟨1, 70, some "b"⟩⟩] ≠ [] ∧
    (get_todays_messages (some "1") 0 50 (.response true
      [⟨some ⟨1, 55, some "a"⟩⟩, ⟨some ⟨2, 60, some "x"⟩⟩,
        ⟨some ⟨1, 70, some "b"⟩⟩])).1 =
      some (String.intercalate "\n"
        ((qualMsgs (some "1") 50 [⟨some ⟨1, 55, some "a"⟩⟩,
          ⟨some ⟨2, 60, some "x"⟩⟩, ⟨some ⟨1, 70, some "b"⟩⟩]).map
          (fmtMsg 0))) :=
  ⟨by decide, (c4_transcript_lines (some "1") 0 50
    [⟨some ⟨1, 55, some "a"⟩⟩, ⟨some ⟨2, 60, some "x"⟩⟩,
      ⟨some ⟨1, 70, some "b"⟩⟩] (by decide)).1⟩

/-- Claim C5: when the filter retains no message, `get_todays_messages`
returns the pair (None, "No messages found for today") and the dispatcher
never calls the analyzer in that invocation. -/
theorem c5_empty_result_short_circuit (cfg : Option String) (chatId : Int)
    (env : Env) (us : List TgUpdate)
    (hf : env.fetchOut = .response true us)
    (hempty : messageLines cfg env.off env.midnight us = []) :
    get_todays_messages cfg env.off env.midnight env.fetchOut =
      (none, some "No messages found for today") ∧
    ∀ s, Effect.aiCall s ∉ analyze_command cfg chatId env := by
  have h1 : get_todays_messages cfg env.off env.midnight env.fetchOut =
      (none, some "No messages found for today") := by
    rw [hf]; simp [get_todays_messages, hempty]
  refine ⟨h1, fun s => ?_⟩
  unfold analyze_command
  by_cases hauth : some (toString chatId) ≠ cfg
  · rw [if_pos hauth]; simp
  · rw [if_neg hauth, h1]; simp

/-- Witness for C5: an empty update list yields the no-messages pair and a
trace without an analyzer call. -/
theorem c5_empty_result_short_circuit_witness :
    (⟨0, 0, .response true [], .response ["all good"] none, none, ⟨[], 0⟩,
      fun _ => none, fun i => "https://drive/" ++ toString i, .ok, .ok,
      "2024-01-01"⟩ : Env).fetchOut = .response true [] ∧
    messageLines (some "1") 0 0 [] = [] ∧
    get_todays_messages (some "1") 0 0 (.response true []) =
      (none, some "No messages found for today") :=
  ⟨rfl, rfl,
    (c5_empty_result_short_circuit (some "1") 1
      ⟨0, 0, .response true [], .response ["all good"] none, none, ⟨[], 0⟩,
        fun _ => none, fun i => "https://drive/" ++ toString i, .ok, .ok,
        "2024-01-01"⟩ [] rfl rfl).1⟩

/-- Claim C3: when the header plus analysis exceeds 4000 characters, the
dispatcher sends the header alone (with markup) and then one plain message
per consecutive 4000-character chunk of the analysis, the last chunk
possibly shorter; the chunk bodies concatenate back to the analysis
exactly, and a 9000-character analysis produces chunk lengths
4000, 4000, 1000. -/
theorem c3_chunked_reply (analysis : String)
    (h : headerStr.length + analysis.length > 4000) :
    sendAnalysis analysis =
      Effect.reply headerStr true ::
        (stringChunks analysis).map (fun c => Effect.reply c false) ∧
    String.join (stringChunks analysis) = analysis ∧
    (∀ c ∈ (stringChunks analysis).dropLast, c.length = 4000) ∧
    (∀ c ∈ stringChunks analysis, c.length ≤ 4000) ∧
    (analysis.length = 9000 →
      (stringChunks analysis).map String.length = [4000, 4000, 1000]) := by
  refine ⟨?_, join_stringChunks analysis, ?_, ?_, ?_⟩
  · unfold sendAnalysis
    rw [if_pos (by rw [String.length_append]; exact h)]
  · intro c hc
    rw [stringChunks, ← List.map_dropLast] at hc
    obtain ⟨l, hl, rfl⟩ := List.mem_map.mp hc
    rw [String.length_mk]
    exact chunks4000_dropLast_length _ _ hl
  · intro c hc
    rw [stringChunks] at hc
    obtain ⟨l, hl, rfl⟩ := List.mem_map.mp hc
    rw [String.length_mk]
    exact chunks4000_length_le _ _ hl
  · intro h9
    rw [stringChunks, List.map_map]
    have hcomp : (String.length ∘ String.mk) = List.length := by
      funext l; exact String.length_mk l
    rw [hcomp]
    exact chunks4000_map_length_9000 _ h9

/-- Witness for C3 at a concrete 9000-character analysis. -/
theorem c3_chunked_reply_witness :
    headerStr.length + (String.mk (List.replicate 9000 'a')).length > 4000 ∧
    (stringChunks (String.mk (List.replicate 9000 'a'))).map String.length =
      [4000, 4000, 1000] := by
  have h9 : (String.mk (List.replicate 9000 'a')).length = 9000 := by
    rw [String.length_mk, List.length_replicate]
  have h : headerStr.length +
      (String.mk (List.replicate 9000 'a')).length > 4000 := by
    rw [h9]; omega
  exact ⟨h,
    (c3_chunked_reply (String.mk (List.replicate 9000 'a')) h).2.2.2.2 h9⟩

/-- Substring test on character lists, used to express whether a reply text
mentions a given link. -/
def containsSub (pat : List Char) : List Char → Bool
  | [] => pat.isEmpty
  | c :: t => pat.isPrefixOf (c :: t) || containsSub pat t

/-- Whether some reply in a trace mentions the given link text. -/
def linkReported (tr : List Effect) (link : String) : Bool :=
  tr.any fun e =>
    match e with
    | .reply s _ => containsSub link.data s.data
    | _ => false

/-- A concrete environment in which the raw-transcript upload succeeds and
the analysis upload raises. -/
def c7Env : Env :=
  ⟨0, 0, .response true [⟨some ⟨1, 100, some "hello"⟩⟩],
    .response ["fine"] none, none, ⟨[], 0⟩, fun _ => none,
    fun i => "https://drive/" ++ toString i, .ok, .raise "boom", "2024-01-01"⟩

/-- Claim C7 is false as written: in `c7Env` the transcript upload succeeds
with link https://drive/1 and the analysis upload fails, yet no reply in
the trace mentions that link; the dispatcher sends only the generic
Drive-error message, dropping the successful upload outcome. -/
theorem c7_counterexample :
    c7Env.inputOutcome = .ok ∧ c7Env.insightsOutcome = .raise "boom" ∧
    (save_to_drive (get_or_create_folder c7Env.drive).2 c7Env.fs
      (get_or_create_folder c7Env.drive).1 "inputs_2024-01-01.txt"
      ("Daily Input Messages - 2024-01-01\n\n[00:01] hello") c7Env.mkLink
      c7Env.inputOutcome).2.2 = .ok "https://drive/1" ∧
    linkReported (analyze_command (some "1") 1 c7Env) "https://drive/1" =
      false := by
  refine ⟨rfl, rfl, rfl, ?_⟩
  decide

/-- Claim C7 amended: on a partial failure where the transcript upload
succeeds and the analysis upload raises, the dispatcher's final reply is
the single generic Drive-error message (which interpolates only the
exception text, not the successful upload's link); the links are reported
only when both uploads succeed. -/
theorem c7_partial_failure_generic_reply (cfg : Option String)
    (chatId : Int) (env : Env) (msgs analysis err : String)
    (hauth : some (toString chatId) = cfg)
    (hfetch : get_todays_messages cfg env.off env.midnight env.fetchOut =
      (some msgs, none))
    (hai : analyze_with_ai env.aiOut = (some analysis, none))
    (hdrive : env.driveAuth = none)
    (hinput : env.inputOutcome = .ok)
    (hins : env.insightsOutcome = .raise err) :
    (save_to_drive (get_or_create_folder env.drive).2 env.fs
      (get_or_create_folder env.drive).1
      ("inputs_" ++ env.todayStr ++ ".txt")
      ("Daily Input Messages - " ++ env.todayStr ++ "\n\n" ++ msgs)
      env.mkLink env.inputOutcome).2.2 =
      .ok (env.mkLink (get_or_create_folder env.drive).2.nextId) ∧
    (analyze_command cfg chatId env).getLast? =
      some (Effect.reply ("⚠️  Error saving to Drive: " ++ err ++
        "\nAnalysis was sent but not saved.") false) := by
  constructor
  · rw [hinput]; simp [save_to_drive]
  · unfold analyze_command
    rw [if_neg (not_not_intro hauth), hfetch, hai, hdrive, hinput, hins]
    simp [save_to_drive]
    rw [← List.cons_append, List.getLast?_append]
    simp

/-- Witness for the amended C7 at the concrete environment `c7Env`. -/
theorem c7_partial_failure_generic_reply_witness :
    (analyze_command (some "1") 1 c7Env).getLast? =
      some (Effect.reply ("⚠️  Error saving to Drive: " ++ "boom" ++
        "\nAnalysis was sent but not saved.") false) :=
  (c7_partial_failure_generic_reply (some "1") 1 c7Env "[00:01] hello"
    "fine" "boom" rfl rfl rfl rfl rfl rfl).2

end InsightsBot

